import Mathlib

/-!
Shallow embedding of the two MintPy helper scripts
`mintpy/download_sarviews.py` and `mintpy/subset_hyp3.py`.

Pure logic of the scripts (filtering, bounding-box arithmetic, string
dispatch, directory bookkeeping) is translated directly from the source.
Calls into external libraries (GDAL raster I/O, pyproj, `glob`, the HTTP
client) have no source in this repository; they are abstracted as explicit
function parameters or as reads of an explicit `World` state, so that every
repository-level decision (which path is read, which file is written, in
which order) remains visible and provable.
-/

namespace MintPy

/-! ## download_sarviews.py -/

/-- One element of the `products` array returned by the SARVIEWS catalog.
`granulePath`/`granuleFrame`/`acquisition_date` model
`product['granules'][0]['path' / 'frame' / 'acquisition_date']`; the
acquisition date is modelled as an integer timestamp (datetime comparison
in the script is a total order on timestamps). -/
structure Product where
  granulePath : String
  granuleFrame : String
  job_type : String
  acquisition_date : Int
  product_url : String
  deriving Repr, DecidableEq

/-- Command-line arguments of `download_sarviews.py`.  `start`/`stop` are
`none` when the corresponding argument string is empty (Python's
`if params.start:` / `if params.end:` falsy test). -/
structure DlArgs where
  output : String
  path : String
  frame : String
  start : Option Int
  stop : Option Int
  deriving Repr, DecidableEq

/-- The filter section of `download_sarviews.main` (lines 77-101):
path equality, frame equality, `job_type == 'INSAR_GAMMA'`, then the
strict date bounds, each applied only when the bound is non-empty. -/
def mainFilter (a : DlArgs) (products : List Product) : List Product :=
  let ps1 := products.filter (fun p => p.granulePath == a.path)
  let ps2 := ps1.filter (fun p => p.granuleFrame == a.frame)
  let ps3 := ps2.filter (fun p => p.job_type == "INSAR_GAMMA")
  let ps4 := match a.start with
    | none => ps3
    | some s => ps3.filter (fun p => s < p.acquisition_date)
  match a.stop with
    | none => ps4
    | some e => ps4.filter (fun p => p.acquisition_date < e)

/-- The only uncaught exception `download_sarviews.main` can raise that we
model: `print(products[0])` on an empty list raises `IndexError`. -/
inductive DlError where
  | indexError
  deriving Repr, DecidableEq

/-- Model of `download_sarviews.main` after the catalog response: `print(products[0])`
(line 70) raises `IndexError` on an empty product list; otherwise the
products are filtered and each remaining product's URL is downloaded, in
order.  The result is the list of downloaded URLs. -/
def mainDownload (a : DlArgs) (products : List Product) :
    Except DlError (List String) :=
  match products with
  | [] => .error .indexError
  | _ :: _ => .ok ((mainFilter a products).map (fun p => p.product_url))

/-! ## subset_hyp3.py: bounding boxes (`get_bounds`, `get_min_bounds`) -/

/-- A GDAL affine geotransform, restricted to the entries the script reads:
`geoTransform[0]` (origin x), `geoTransform[1]` (pixel width),
`geoTransform[3]` (origin y), `geoTransform[5]` (signed pixel height,
conventionally negative).  Coordinates are modelled as rationals. -/
structure GeoTransform where
  originX : ℚ
  pixelWidth : ℚ
  originY : ℚ
  pixelHeight : ℚ
  deriving Repr, DecidableEq

/-- The header data of a GeoTIFF that `get_bounds` consumes. -/
structure RasterHeader where
  gt : GeoTransform
  rasterXSize : ℕ
  rasterYSize : ℕ
  deriving Repr, DecidableEq

/-- Model of `get_bounds` (lines 151-159): the extent `[minx, miny, maxx, maxy]` of a
raster computed from its geotransform and pixel dimensions. -/
def get_bounds (r : RasterHeader) : ℚ × ℚ × ℚ × ℚ :=
  let minx := r.gt.originX
  let maxy := r.gt.originY
  let maxx := minx + r.gt.pixelWidth * (r.rasterXSize : ℚ)
  let miny := maxy + r.gt.pixelHeight * (r.rasterYSize : ℚ)
  (minx, miny, maxx, maxy)

/-- Maximum of `f` over a nonempty list, as `np.max` over one column of the
`bounds` matrix. -/
def colMax (f : RasterHeader → ℚ) (r : RasterHeader)
    (rs : List RasterHeader) : ℚ :=
  rs.foldl (fun acc x => max acc (f x)) (f r)

/-- Minimum of `f` over a nonempty list, as `np.min` over one column. -/
def colMin (f : RasterHeader → ℚ) (r : RasterHeader)
    (rs : List RasterHeader) : ℚ :=
  rs.foldl (fun acc x => min acc (f x)) (f r)

/-- Model of `get_min_bounds` (lines 162-176), on the raster headers behind the
unwrapped-phase paths.  `min_bounds = (max minx, max miny, min maxx,
min maxy)` over the stack, and the function returns
`ul_utm = [min_bounds[0], min_bounds[3]]`,
`lr_utm = [min_bounds[1], min_bounds[2]]` — exactly as written in the
source.  `np.max` on an empty array raises, hence `Option`. -/
def get_min_bounds : List RasterHeader → Option ((ℚ × ℚ) × (ℚ × ℚ))
  | [] => none
  | r :: rs =>
    let maxMinx := colMax (fun x => (get_bounds x).1) r rs
    let maxMiny := colMax (fun x => (get_bounds x).2.1) r rs
    let minMaxx := colMin (fun x => (get_bounds x).2.2.1) r rs
    let minMaxy := colMin (fun x => (get_bounds x).2.2.2) r rs
    let ul_utm := (maxMinx, minMaxy)
    let lr_utm := (maxMiny, minMaxx)
    some (ul_utm, lr_utm)

/-- A point `(x, y)` lies inside the footprint of a raster. -/
def inFootprint (r : RasterHeader) (pt : ℚ × ℚ) : Prop :=
  let b := get_bounds r
  b.1 ≤ pt.1 ∧ pt.1 ≤ b.2.2.1 ∧ b.2.1 ≤ pt.2 ∧ pt.2 ≤ b.2.2.2

instance (r : RasterHeader) (pt : ℚ × ℚ) : Decidable (inFootprint r pt) := by
  unfold inFootprint; infer_instance

/-- A 10×10 raster with origin (0, 10), 1 m pixels: extent x ∈ [0, 10],
y ∈ [0, 10]. -/
def rasterA : RasterHeader :=
  { gt := { originX := 0, pixelWidth := 1, originY := 10, pixelHeight := -1 }
    rasterXSize := 10, rasterYSize := 10 }

/-- A 10×10 raster with origin (1, 9): extent x ∈ [1, 11], y ∈ [-1, 9]. -/
def rasterB : RasterHeader :=
  { gt := { originX := 1, pixelWidth := 1, originY := 9, pixelHeight := -1 }
    rasterXSize := 10, rasterYSize := 10 }

/-! ## subset_hyp3.py: strings, filesystem state, discovery -/

/-- Python's `sub in s` substring test. -/
def strContains (s sub : String) : Bool :=
  decide (sub.data <:+: s.data)

/-- Python's `os.path.basename`: the part after the last `/` (empty for a
trailing slash, the whole string when there is no `/`). -/
def basename (p : String) : String :=
  String.mk (p.data.reverse.takeWhile (fun c => c ≠ '/')).reverse

/-- Python's `os.path.dirname`: everything before the last `/` (empty when
there is no `/`), for the relative multi-component paths the script
builds. -/
def dirname (p : String) : String :=
  String.mk ((p.data.reverse.dropWhile (fun c => c ≠ '/')).drop 1).reverse

/-- Python's `os.path.join` for the relative second components the scripts use. -/
def joinPath (a b : String) : String :=
  if a = "" then b else a ++ "/" ++ b

/-- Model of `get_paths` (lines 130-142) over an abstract `glob.glob`: concatenate
the glob results of all patterns in order, then sort the whole list once
(`tiff_paths.sort()`).  The `str` overload of the source corresponds to a
singleton pattern list. -/
def get_paths (globFn : String → List String) (paths : List String) :
    List String :=
  let tiff_paths := paths.foldl (fun acc p => acc ++ globFn p) []
  tiff_paths.insertionSort (· ≤ ·)

/-- Contents of one file.  Text files carry their bytes as a string;
rasters carry the header data, projection, no-data value and band pixels.
The pixel value type `α` is a parameter (the scripts compute with floats;
the theorems about the trigonometric correction instantiate `α := ℝ`,
witnesses use a computable instance). -/
structure RasterFile (α : Type) where
  header : RasterHeader
  projection : String
  noData : Option α
  pixels : List α

inductive FileData (α : Type) where
  | text (contents : String)
  | raster (r : RasterFile α)

/-- The filesystem as the scripts observe it: a set of existing directories
and an association list of files. -/
structure World (α : Type) where
  dirs : List String
  files : List (String × FileData α)

variable {α : Type}

def findFile (w : World α) (p : String) : Option (FileData α) :=
  w.files.lookup p

def writeFile (w : World α) (p : String) (d : FileData α) : World α :=
  { w with files := (p, d) :: w.files }

/-- Whether `q` is `p` itself or lies strictly below directory `p`. -/
def underPath (p q : String) : Bool :=
  (p ++ "/").data.isPrefixOf q.data || q == p

/-- Python's `os.path.exists`, on the modelled state. -/
def pathExists (w : World α) (p : String) : Bool :=
  w.dirs.contains p || w.files.any (fun e => e.1 == p)

def mkdirW (w : World α) (p : String) : World α :=
  { w with dirs := p :: w.dirs }

/-- Python's `shutil.rmtree`: removes the directory and everything below it. -/
def rmtreeW (w : World α) (p : String) : World α :=
  { dirs := w.dirs.filter (fun d => !underPath p d)
    files := w.files.filter (fun e => !underPath p e.1) }

/-- Observable actions of one run, in program order. -/
inductive Step where
  | print (msg : String)
  | mkdir (p : String)
  | rmtree (p : String)
  | copy (src dst : String)
  | clip (src dst : String)
  | incCorrect (p : String)
  | warp (p : String)
  | write (p : String)
  deriving Repr, DecidableEq

/-- The external geospatial libraries (GDAL, pyproj), abstracted: the
repository only chooses what they are applied to. `translate` is
`gdal.Translate` with the given projection window, `warp` is `gdal.Warp`
to EPSG:4326, `utmZone` is `get_utm_zone`'s WKT extraction, `toUtm` is
`lonLat_to_utm`'s pyproj transform. -/
structure Geo (α : Type) where
  translate : (ℚ × ℚ) → (ℚ × ℚ) → String → FileData α → FileData α
  warp : FileData α → FileData α
  utmZone : FileData α → String
  toUtm : ℚ → ℚ → String → ℚ × ℚ

/-! ## subset_hyp3.py: per-file operations -/

/-- Model of `move_and_clip` (lines 111-122): dispatch on substring containment in
the *source* path.  `'.txt' in path` copies the bytes verbatim; otherwise
`'.tif' in path` clips via `gdal.Translate`; otherwise nothing happens.
(`shutil.copyfile` / `gdal.Translate` on a missing source would raise;
the claims only exercise present sources, so the missing case leaves the
state unchanged.) -/
def move_and_clip (geo : Geo α) (path destination : String) (utm : String)
    (ul_utm lr_utm : ℚ × ℚ) (w : World α) : World α × List Step :=
  if strContains path ".txt" then
    match findFile w path with
    | some d => (writeFile w destination d, [.copy path destination])
    | none => (w, [.copy path destination])
  else if strContains path ".tif" then
    match findFile w path with
    | some d =>
      (writeFile w destination (geo.translate ul_utm lr_utm utm d),
       [.clip path destination])
    | none => (w, [.clip path destination])
  else (w, [])

/-- Model of `correct_inc` (lines 85-108): read the raster at `theta_map`, replace
every pixel `θ` by `π/2 − θ`, and create a brand-new raster at the same
path carrying the source's geotransform and projection and a no-data value
of `0`.  The numeric constant `np.pi/2` and the literal `0` are abstracted
as `halfPi` and `zero` of the pixel type; the correction theorems
instantiate them with `Real.pi/2` and `(0 : ℝ)`.  (`gdal.Open` on a
missing or non-raster path would fail; not exercised by the claims.) -/
def correct_inc [Sub α] (halfPi zero : α) (theta_map : String) (w : World α) :
    World α × List Step :=
  match findFile w theta_map with
  | some (.raster r) =>
    let theta := r.pixels.map (fun θ => halfPi - θ)
    let out : RasterFile α :=
      { header := r.header, projection := r.projection
        noData := some zero, pixels := theta }
    (writeFile w theta_map (.raster out), [.incCorrect theta_map])
  | _ => (w, [.incCorrect theta_map])

/-- Model of `to_WGS84` (lines 125-127): warp a `.tif` in place to EPSG:4326. -/
def to_WGS84 (geo : Geo α) (path : String) (w : World α) :
    World α × List Step :=
  if strContains path ".tif" then
    match findFile w path with
    | some d => (writeFile w path (geo.warp d), [.warp path])
    | none => (w, [.warp path])
  else (w, [])

/-! ## subset_hyp3.py: template emission and main -/

/-- The f-string template of `build_template` (lines 49-57). -/
def templateText (directory : String) : String :=
  "\nmintpy.load.processor        = hyp3\n" ++
  "# ---------interferogram datasets:\n" ++
  "mintpy.load.unwFile          = " ++
    joinPath directory "*/*unw_phase.tif" ++ "\n" ++
  "mintpy.load.corFile          = " ++
    joinPath directory "*/*corr.tif" ++ "\n" ++
  "# ---------geometry datasets:\n" ++
  "mintpy.load.demFile          = " ++
    joinPath directory "*/*dem.tif" ++ "\n" ++
  "mintpy.load.incAngleFile     = " ++
    joinPath directory "*/*lv_theta.tif" ++ "\n    "

/-- The uncaught exceptions the subsetter can raise in the modelled
fragment: `NameError` from reading the never-assigned `tiff_paths`
(line 212 after the directory did not exist), `IndexError` from
`get_paths(paths_unw)[0]` on an empty list (line 230), and
`FileExistsError` from `os.mkdir` on a directory that still exists after
a failed `shutil.rmtree` (lines 45 and 227, where the mkdir sits outside
the try/except). -/
inductive MainErr where
  | nameError
  | indexError
  | fileExistsError
  deriving Repr, DecidableEq

/-- Model of `build_template` (lines 37-60): when `mintpy_path` exists,
remove the whole tree with `shutil.rmtree`.  An `OSError` from the
removal is caught and its message printed (`rmtreeOk` says whether the
removal succeeds on a given path; on failure the tree is left in place),
after which control reaches `os.mkdir(mintpy_path)` at line 45 — outside
the try/except — which raises an uncaught `FileExistsError` on the
still-existing directory, so the run aborts and `template.txt` is never
written.  When the removal succeeds (or the directory was absent), the
directory is (re)created and `template.txt` written. -/
def build_template (rmtreeOk : String → Bool) (mintpy_path : String)
    (w : World α) : World α × List Step × Option MainErr :=
  let directory := joinPath mintpy_path "../hyp3"
  let tpl := joinPath mintpy_path "template.txt"
  if pathExists w mintpy_path then
    if rmtreeOk mintpy_path then
      let w2 := mkdirW (rmtreeW w mintpy_path) mintpy_path
      (writeFile w2 tpl (.text (templateText directory)),
       [Step.rmtree mintpy_path, Step.mkdir mintpy_path, Step.write tpl],
       none)
    else
      (w, [Step.rmtree mintpy_path, Step.print "Error: removal failed"],
       some MainErr.fileExistsError)
  else
    (writeFile (mkdirW w mintpy_path) tpl (.text (templateText directory)),
     [Step.mkdir mintpy_path, Step.write tpl], none)

/-- The destination path built at lines 246-247:
`os.path.join(cwd, output, 'hyp3', basename(dirname(file)), basename(file))`. -/
def destinationFor (cwd output file : String) : String :=
  joinPath (joinPath (joinPath (joinPath cwd output) "hyp3")
    (basename (dirname file))) (basename file)

/-- The loop body of `subset_hyp3.main` (lines 245-256) for one discovered
file: build the destination path, `move_and_clip`, then — when the
destination mentions `lv_theta` — `correct_inc(file)` on the *source*
path, then — when `--WGS84` was passed — `to_WGS84(destination)`. -/
def processFile [Sub α] (geo : Geo α) (halfPi zero : α)
    (cwd output utm : String) (ul_utm lr_utm : ℚ × ℚ) (wgs84 : Bool)
    (w : World α) (file : String) : World α × List Step :=
  let destination := destinationFor cwd output file
  let (w1, s1) := move_and_clip geo file destination utm ul_utm lr_utm w
  let (w2, s2) :=
    if strContains destination "lv_theta" then
      correct_inc halfPi zero file w1
    else (w1, [])
  let (w3, s3) := if wgs84 then to_WGS84 geo destination w2 else (w2, [])
  (w3, s1 ++ s2 ++ s3)

/-- Command-line parameters of `subset_hyp3.py`.  `subset_lat` is the pair
(S, N), `subset_lon` the pair (W, E); each is `none` when the argument was
not given. -/
structure SubsetParams where
  path : String
  subset_lat : Option (ℚ × ℚ)
  subset_lon : Option (ℚ × ℚ)
  wgs84 : Bool
  output : String

/-- The five glob patterns of `subset_hyp3.main` (lines 186-192), in the
source's category order: correlation, unwrapped phase, DEM, incidence
angle, metadata text. -/
def discoveryPatterns (tiff_dir : String) : List String :=
  [tiff_dir ++ "/**/*_corr.tif",
   tiff_dir ++ "/**/*_unw_phase.tif",
   tiff_dir ++ "/**/*_dem.tif",
   tiff_dir ++ "/**/*_lv_theta.tif",
   tiff_dir ++ "/**/*[!.md].txt"]

/-- The raster header behind a path, as `gdal.Open(...).GetGeoTransform()`
reads it (a missing or non-raster file would abort the run with a GDAL
error; that case is not exercised by the claims and returns a dummy). -/
def rasterAt (w : World α) (p : String) : RasterHeader :=
  match findFile w p with
  | some (.raster r) => r.header
  | _ => { gt := { originX := 0, pixelWidth := 0, originY := 0,
                   pixelHeight := 0 }, rasterXSize := 0, rasterYSize := 0 }

/-- The file contents behind a path (same caveat as `rasterAt`). -/
def dataAt (w : World α) (p : String) : FileData α :=
  (findFile w p).getD (.text "")

/-- The body of the per-interferogram directory loop (lines 220-227): a
fresh empty subdirectory for one interferogram name, wiping any
pre-existing one.  A removal failure is caught and printed, but the
`os.mkdir(new_path)` at line 227 sits outside the try/except and raises
an uncaught `FileExistsError` on the still-existing directory, aborting
the run; once an iteration has aborted, later iterations do not run. -/
def ifgDirStep (rmtreeOk : String → Bool) (hyp3_path : String)
    (acc : World α × List Step × Option MainErr) (name : String) :
    World α × List Step × Option MainErr :=
  match acc.2.2 with
  | some _ => acc
  | none =>
    let new_path := joinPath hyp3_path name
    if pathExists acc.1 new_path then
      if rmtreeOk new_path then
        (mkdirW (rmtreeW acc.1 new_path) new_path,
         acc.2.1 ++ [Step.rmtree new_path, Step.mkdir new_path], none)
      else
        (acc.1,
         acc.2.1 ++ [Step.rmtree new_path,
           Step.print "Error: removal failed"],
         some MainErr.fileExistsError)
    else (mkdirW acc.1 new_path, acc.2.1 ++ [Step.mkdir new_path], none)

/-- The per-interferogram directory loop (lines 220-227). -/
def makeIfgDirs (rmtreeOk : String → Bool) (hyp3_path : String)
    (names : List String) (w : World α) :
    World α × List Step × Option MainErr :=
  names.foldl (ifgDirStep rmtreeOk hyp3_path)
    (w, ([] : List Step), (none : Option MainErr))

/-- The diagnostic prints of lines 194-203 (the bare `exit` statements at
lines 200 and 203 are name references without a call: they have no
effect). -/
def checkMessages (tiff_dir : String) : Option (List String) → List Step
  | some tps =>
    [Step.print ("Found " ++ toString tps.length ++ " files")] ++
    (if tps.length < 1 then
      [Step.print (tiff_dir ++ " exists but contains no tifs."),
       Step.print "You will not be able to proceed until tifs are prepared."]
     else [])
  | none => [Step.print (tiff_dir ++ " does not exist.")]

/-- Lines 205-209: report an existing output directory, otherwise create
it. -/
def outputSetup (pa : SubsetParams) (cwd : String) (w : World α) :
    World α × List Step :=
  if pathExists w pa.output then
    (w, [Step.print "Output directory already exists, overwriting..."])
  else
    (mkdirW w (joinPath cwd pa.output),
     [Step.mkdir (joinPath cwd pa.output)])

/-- Lines 217-218: create the `hyp3` container directory when absent. -/
def hyp3Setup (hyp3_path : String) (w : World α) : World α × List Step :=
  if pathExists w hyp3_path then (w, ([] : List Step))
  else (mkdirW w hyp3_path, [Step.mkdir hyp3_path])

/-- Model of `subset_hyp3.main` (lines 179-260).  The run returns the final
filesystem, the observable steps in program order, and the error the run
aborts with, if any.  `tiff_paths` is only assigned in the
directory-exists branch; when the directory is absent, line 212's read of
it raises `NameError` — after the output-directory step at lines 206-209
has already run.  Value-echoing `print` calls (`bounds`, `ul_utm`) are not
recorded as steps; diagnostic prints are. -/
def mainSubset [Sub α] (geo : Geo α) (halfPi zero : α)
    (g : String → List String) (rmtreeOk : String → Bool)
    (pa : SubsetParams) (cwd : String) (w : World α) :
    World α × List Step × Option MainErr :=
  let tiff_dir := pa.path
  let paths := discoveryPatterns tiff_dir
  let tpOpt : Option (List String) :=
    if pathExists w tiff_dir then some (get_paths g paths) else none
  let checkSteps := checkMessages tiff_dir tpOpt
  let out := outputSetup pa cwd w
  match tpOpt with
  | none => (out.1, checkSteps ++ out.2, some MainErr.nameError)
  | some tiff_paths =>
    let interferograms :=
      (tiff_paths.map (fun p => basename (dirname p))).dedup
    let hyp3_path := joinPath (joinPath cwd pa.output) "hyp3"
    let hy := hyp3Setup hyp3_path out.1
    let ifg := makeIfgDirs rmtreeOk hyp3_path interferograms hy.1
    match ifg.2.2 with
    | some e => (ifg.1, checkSteps ++ out.2 ++ hy.2 ++ ifg.2.1, some e)
    | none =>
      match get_paths g [tiff_dir ++ "/**/*_unw_phase.tif"] with
      | [] =>
        (ifg.1, checkSteps ++ out.2 ++ hy.2 ++ ifg.2.1,
         some MainErr.indexError)
      | first :: rest =>
        let utm := geo.utmZone (dataAt ifg.1 first)
        let box :=
          match pa.subset_lat, pa.subset_lon with
          | some la, some lo =>
            (geo.toUtm lo.1 la.2 utm, geo.toUtm lo.2 la.1 utm)
          | _, _ =>
            (get_min_bounds ((first :: rest).map (rasterAt ifg.1))).getD
              ((0, 0), (0, 0))
        let files := tiff_paths.foldl
          (fun acc file =>
            let step := processFile geo halfPi zero cwd pa.output utm
              box.1 box.2 pa.wgs84 acc.1 file
            (step.1, acc.2 ++ step.2))
          (ifg.1, ([] : List Step))
        let mintpy_path := joinPath (joinPath cwd pa.output) "mintpy"
        let tmpl := build_template rmtreeOk mintpy_path files.1
        (tmpl.1, checkSteps ++ out.2 ++ hy.2 ++ ifg.2.1 ++ files.2 ++
          tmpl.2.1, tmpl.2.2)

/-! ## Concrete inputs for evaluations -/

/-- Steps that produce file output (a clipped or copied file, an in-place
correction or warp, a written file), as opposed to prints and directory
bookkeeping. -/
def fileOutputStep : Step → Bool
  | .copy _ _ => true
  | .clip _ _ => true
  | .incCorrect _ => true
  | .warp _ => true
  | .write _ => true
  | _ => false

/-- Downloader arguments with empty date bounds. -/
def dlArgs0 : DlArgs :=
  { output := "./igrams", path := "131", frame := "456",
    start := none, stop := none }

/-- Downloader arguments with both date bounds set. -/
def dlArgs1 : DlArgs :=
  { output := "./igrams", path := "131", frame := "456",
    start := some 10, stop := some 20 }

/-- A product whose granule path does not match `dlArgs0.path`. -/
def productX : Product :=
  { granulePath := "99", granuleFrame := "456", job_type := "INSAR_GAMMA",
    acquisition_date := 15, product_url := "https://h/x.zip" }

/-- A product matching every filter of `dlArgs1`. -/
def productY : Product :=
  { granulePath := "131", granuleFrame := "456", job_type := "INSAR_GAMMA",
    acquisition_date := 15, product_url := "https://h/y.zip" }

/-- A glob oracle: the correlation pattern under root `ifgs` matches a
lexicographically late file, the unwrapped-phase pattern an early one. -/
def glob0 : String → List String := fun pat =>
  if pat = "ifgs/**/*_corr.tif" then ["ifgs/b/z_corr.tif"]
  else if pat = "ifgs/**/*_unw_phase.tif" then ["ifgs/a/a_unw_phase.tif"]
  else []

/-- A glob oracle that finds one correlation file and nothing else. -/
def glob1 : String → List String := fun pat =>
  if pat = "ifgs/**/*_corr.tif" then ["ifgs/A/A_corr.tif"] else []

/-- A glob oracle that finds nothing. -/
def globNone : String → List String := fun _ => []

/-- Concrete external-library behaviour over computable pixels: clipping
and warping leave contents unchanged, fixed UTM zone and transform. -/
def geoQ : Geo ℚ :=
  { translate := fun _ _ _ d => d, warp := fun d => d,
    utmZone := fun _ => "32611", toUtm := fun _ _ _ => (0, 0) }

/-- Same benign external-library behaviour at real-valued pixels. -/
def geoR : Geo ℝ :=
  { translate := fun _ _ _ d => d, warp := fun d => d,
    utmZone := fun _ => "32611", toUtm := fun _ _ _ => (0, 0) }

/-- Subsetter parameters: adaptive box, no WGS84 reprojection. -/
def paW : SubsetParams :=
  { path := "ifgs", subset_lat := none, subset_lon := none,
    wgs84 := false, output := "out" }

/-- An empty filesystem. -/
def wEmpty : World ℚ := { dirs := [], files := [] }

/-- A filesystem where only the input root `ifgs` exists. -/
def wIfgs : World ℚ := { dirs := ["ifgs"], files := [] }

/-- A filesystem with a populated `out/mintpy` directory. -/
def w9 : World ℚ :=
  { dirs := ["out", "out/mintpy"]
    files := [("out/mintpy/old.h5", .text "precious"),
              ("out/mintpy/template.txt", .text "stale")] }

/-- A filesystem with a metadata text file whose name also contains
`.tif`, a plain tif, and a file containing neither substring. -/
def w10 : World ℚ :=
  { dirs := []
    files := [("A/meta.tif.txt", .text "metadata"),
              ("A/b_unw_phase.tif",
                .raster { header := rasterA, projection := "EPSG:32611",
                          noData := some 0, pixels := [1] }),
              ("A/notes.dat", .text "n")] }

/-- An always-succeeding `shutil.rmtree`. -/
def rkAll : String → Bool := fun _ => true

/-! ## Theorems -/

/-- **C1** (code bug): for the stack `[rasterA, rasterB]` the claimed
overlap box is upper-left `(max minx, min maxy) = (1, 9)` and lower-right
`(min maxx, max miny) = (10, 0)`.  The code computes `min_bounds`
correctly but returns `lr_utm = [min_bounds[1], min_bounds[2]] = (0, 10)`
— the lower-right corner with its x and y coordinates swapped,
contradicting the source's own `(x, y)` comment; the resulting corner
does not even lie in `rasterB`'s footprint. -/
theorem get_min_bounds_swaps_lower_right :
    get_min_bounds [rasterA, rasterB] = some ((1, 9), (0, 10)) ∧
    ((0 : ℚ), (10 : ℚ)) ≠ ((10 : ℚ), (0 : ℚ)) ∧
    ¬ inFootprint rasterB (0, 10) := by
  refine ⟨?_, by decide, ?_⟩
  · norm_num [get_min_bounds, colMax, colMin, get_bounds, rasterA, rasterB,
      max_def, min_def]
  · norm_num [inFootprint, get_bounds, rasterB]

/-- **C6**: the incidence correction replaces every pixel `θ` by
`π/2 − θ` pointwise (a brand-new raster whose pixel list is the map of
the source's), the map is its own inverse, and it is not literally
idempotent. -/
theorem correct_inc_selfinverse_not_idempotent :
    (∀ (p : String) (r : RasterFile ℝ),
      findFile (correct_inc (Real.pi / 2) 0 p
          { dirs := [], files := [(p, .raster r)] }).1 p =
        some (.raster { header := r.header, projection := r.projection,
                        noData := some 0,
                        pixels := r.pixels.map (fun θ => Real.pi / 2 - θ) })) ∧
    (∀ θ : ℝ, Real.pi / 2 - (Real.pi / 2 - θ) = θ) ∧
    ¬ (∀ θ : ℝ, Real.pi / 2 - (Real.pi / 2 - θ) = Real.pi / 2 - θ) := by
  refine ⟨?_, fun θ => by ring, ?_⟩
  · intro p r
    simp [correct_inc, findFile, writeFile, List.lookup]
  · intro h
    have h0 := h 0
    have hpi : Real.pi = 0 := by linarith
    exact Real.pi_ne_zero hpi

/-- Concrete check of C6: the pointwise map applied to a one-pixel raster,
and self-inversion at `θ = 1`. -/
theorem correct_inc_selfinverse_witness :
    findFile (correct_inc (Real.pi / 2) 0 "a"
        { dirs := [],
          files := [("a",
            .raster { header := rasterA, projection := "EPSG:32611",
                      noData := some 0, pixels := [0] })] }).1 "a" =
      some (.raster { header := rasterA, projection := "EPSG:32611",
                      noData := some 0,
                      pixels := ([0] : List ℝ).map
                        (fun θ => Real.pi / 2 - θ) }) ∧
    Real.pi / 2 - (Real.pi / 2 - 1) = (1 : ℝ) :=
  ⟨correct_inc_selfinverse_not_idempotent.1 "a"
    { header := rasterA, projection := "EPSG:32611", noData := some 0,
      pixels := [0] },
   correct_inc_selfinverse_not_idempotent.2.1 1⟩

/-- **C2 counterexample**: on a catalog response whose products list is
empty, the downloader's main does not complete with zero downloads — it
raises an `IndexError` at the debug `print(products[0])`. -/
theorem mainDownload_empty_products_raises :
    mainDownload dlArgs0 [] = Except.error DlError.indexError := rfl

/-- **C2 amended**: an empty products list makes main abort with an
uncaught `IndexError` at the debug print of the first product, before any
filtering or download; it is only for a *nonempty* products list whose
products are all removed by the filters that the download loop is a no-op
with zero downloads and no error. -/
theorem mainDownload_empty_products_amended (a : DlArgs) (ps : List Product)
    (hps : ps ≠ []) :
    mainDownload a [] = Except.error DlError.indexError ∧
    (mainFilter a ps = [] → mainDownload a ps = Except.ok []) := by
  refine ⟨rfl, fun hf => ?_⟩
  cases ps with
  | nil => exact absurd rfl hps
  | cons p ps' => simp [mainDownload, hf]

/-- Concrete check of the amended C2: one product that fails the path
filter; the run downloads nothing and raises nothing. -/
theorem mainDownload_empty_products_amended_witness :
    mainDownload dlArgs0 [] = Except.error DlError.indexError ∧
    (mainFilter dlArgs0 [productX] = [] →
      mainDownload dlArgs0 [productX] = Except.ok []) :=
  mainDownload_empty_products_amended dlArgs0 [productX] (by decide)

/-- **C4 counterexample**: with the fixed per-category patterns under root
`ifgs` and glob results containing a late correlation file and an early
unwrapped-phase file, `get_paths` returns the globally sorted list, which
differs from the per-category-sorted concatenation in fixed category
order (correlation first). -/
theorem get_paths_not_per_category_order :
    get_paths glob0 (discoveryPatterns "ifgs") =
      ["ifgs/a/a_unw_phase.tif", "ifgs/b/z_corr.tif"] ∧
    get_paths glob0 (discoveryPatterns "ifgs") ≠
      (discoveryPatterns "ifgs").foldl
        (fun acc p => acc ++ (glob0 p).insertionSort (· ≤ ·)) [] := by
  have hba : ¬ ("ifgs/b/z_corr.tif" ≤ "ifgs/a/a_unw_phase.tif") := by
    simp only [String.le_iff_toList_le]
    decide
  have h1 : get_paths glob0 (discoveryPatterns "ifgs") =
      ["ifgs/a/a_unw_phase.tif", "ifgs/b/z_corr.tif"] := by
    simp [get_paths, discoveryPatterns, glob0, List.insertionSort,
      List.orderedInsert, hba]
  have h2 : (discoveryPatterns "ifgs").foldl
      (fun acc p => acc ++ (glob0 p).insertionSort (· ≤ ·)) [] =
      ["ifgs/b/z_corr.tif", "ifgs/a/a_unw_phase.tif"] := by
    simp [discoveryPatterns, glob0, List.insertionSort, List.orderedInsert]
  rw [h1, h2]
  refine ⟨rfl, ?_⟩
  decide

/-- **C4 amended**: file discovery returns the concatenation of all
per-pattern glob results sorted lexicographically as one single list (not
sorted per category and not deduplicated): the result is sorted, is a
permutation of the concatenated glob results, and on a single pattern —
as used to derive the reference coordinate system from the first
unwrapped-phase file — it is exactly the sorted match list, so the first
file is the deterministic lexicographic minimum of the matches. -/
theorem get_paths_globally_sorted (g : String → List String)
    (ps : List String) :
    (get_paths g ps).Sorted (· ≤ ·) ∧
    (get_paths g ps).Perm (ps.foldl (fun acc p => acc ++ g p) []) ∧
    ∀ p, get_paths g [p] = (g p).insertionSort (· ≤ ·) := by
  refine ⟨?_, ?_, fun p => ?_⟩
  · exact List.sorted_insertionSort _ _
  · exact List.perm_insertionSort _ _
  · simp [get_paths]

/-- **C5**: a product is retained by the downloader's filter chain exactly
when its granule path equals `--path`, its granule frame equals
`--frame`, its job type is the InSAR product type `INSAR_GAMMA`, and its
acquisition date lies strictly between the given bounds, each date filter
being skipped when its bound is empty; with both bounds empty the three
non-date filters alone determine the result. -/
theorem mainFilter_retains_exactly (a : DlArgs) (ps : List Product)
    (p : Product) :
    (p ∈ mainFilter a ps ↔
      p ∈ ps ∧ p.granulePath = a.path ∧ p.granuleFrame = a.frame ∧
        p.job_type = "INSAR_GAMMA" ∧
        (∀ s, a.start = some s → s < p.acquisition_date) ∧
        (∀ e, a.stop = some e → p.acquisition_date < e)) ∧
    (∀ o path frame,
      mainFilter { output := o, path := path, frame := frame,
                   start := none, stop := none } ps =
        ((ps.filter (fun q => q.granulePath == path)).filter
          (fun q => q.granuleFrame == frame)).filter
          (fun q => q.job_type == "INSAR_GAMMA")) := by
  constructor
  · rcases a with ⟨o, pa, fr, st, en⟩
    cases st <;> cases en <;>
      simp [mainFilter, List.mem_filter, and_assoc, beq_iff_eq] <;>
      intro _ <;> tauto
  · intro o path frame
    simp [mainFilter]

/-- Concrete check of C5: with both date bounds set, the matching product
is characterized by the filter conjunction; with empty bounds the
non-date filters alone apply. -/
theorem mainFilter_retains_exactly_witness :
    (productY ∈ mainFilter dlArgs1 [productX, productY] ↔
      productY ∈ [productX, productY] ∧
        productY.granulePath = dlArgs1.path ∧
        productY.granuleFrame = dlArgs1.frame ∧
        productY.job_type = "INSAR_GAMMA" ∧
        (∀ s, dlArgs1.start = some s → s < productY.acquisition_date) ∧
        (∀ e, dlArgs1.stop = some e → productY.acquisition_date < e)) ∧
    (∀ o path frame,
      mainFilter { output := o, path := path, frame := frame,
                   start := none, stop := none } [productX, productY] =
        (([productX, productY].filter
            (fun q => q.granulePath == path)).filter
          (fun q => q.granuleFrame == frame)).filter
          (fun q => q.job_type == "INSAR_GAMMA")) :=
  mainFilter_retains_exactly dlArgs1 [productX, productY] productY

/-- **C10**: the dispatch in `move_and_clip` is by substring containment
on the source path: a path containing `.txt` is copied verbatim (even if
it also contains `.tif`), a path containing `.tif` but not `.txt` is
clipped, and a path containing neither substring produces no output and
no error — the state is unchanged and no step is emitted. -/
theorem move_and_clip_dispatch {α : Type} (geo : Geo α)
    (path dst utm : String) (ul lr : ℚ × ℚ) (w : World α) (d : FileData α)
    (hd : findFile w path = some d) :
    (strContains path ".txt" = true →
      move_and_clip geo path dst utm ul lr w =
        (writeFile w dst d, [Step.copy path dst])) ∧
    (strContains path ".txt" = false → strContains path ".tif" = true →
      move_and_clip geo path dst utm ul lr w =
        (writeFile w dst (geo.translate ul lr utm d),
         [Step.clip path dst])) ∧
    (strContains path ".txt" = false → strContains path ".tif" = false →
      move_and_clip geo path dst utm ul lr w = (w, [])) := by
  refine ⟨fun h1 => ?_, fun h1 h2 => ?_, fun h1 h2 => ?_⟩
  · simp [move_and_clip, h1, hd]
  · simp [move_and_clip, h1, h2, hd]
  · simp [move_and_clip, h1, h2]

/-- Concrete check of C10 on `w10`: the `.tif.txt` metadata file is
copied (the `.txt` branch wins over `.tif`), the plain `.tif` is clipped,
and the `.dat` file is a silent no-op. -/
theorem move_and_clip_dispatch_witness :
    (move_and_clip geoQ "A/meta.tif.txt" "d" "32611" (0, 0) (0, 0) w10 =
      (writeFile w10 "d" (.text "metadata"),
       [Step.copy "A/meta.tif.txt" "d"])) ∧
    (move_and_clip geoQ "A/b_unw_phase.tif" "d" "32611" (0, 0) (0, 0) w10 =
      (writeFile w10 "d" (geoQ.translate (0, 0) (0, 0) "32611"
          (.raster { header := rasterA, projection := "EPSG:32611",
                     noData := some 0, pixels := [1] })),
       [Step.clip "A/b_unw_phase.tif" "d"])) ∧
    (move_and_clip geoQ "A/notes.dat" "d" "32611" (0, 0) (0, 0) w10 =
      (w10, [])) :=
  ⟨(move_and_clip_dispatch geoQ "A/meta.tif.txt" "d" "32611" (0, 0) (0, 0)
      w10 (.text "metadata") rfl).1 (by decide),
   (move_and_clip_dispatch geoQ "A/b_unw_phase.tif" "d" "32611" (0, 0) (0, 0)
      w10 (.raster { header := rasterA, projection := "EPSG:32611",
                     noData := some 0, pixels := [1] }) rfl).2.1
     (by decide) (by decide),
   (move_and_clip_dispatch geoQ "A/notes.dat" "d" "32611" (0, 0) (0, 0)
      w10 (.text "n") rfl).2.2 (by decide) (by decide)⟩

/-- Writing at a path makes the file readable there. -/
theorem findFile_writeFile_same {α : Type} (w : World α) (p : String)
    (d : FileData α) : findFile (writeFile w p d) p = some d := by
  simp [findFile, writeFile, List.lookup]

/-- Writing at one path leaves every other path unchanged. -/
theorem findFile_writeFile_ne {α : Type} (w : World α) (p q : String)
    (d : FileData α) (h : q ≠ p) :
    findFile (writeFile w p d) q = findFile w q := by
  have hb : (q == p) = false := beq_eq_false_iff_ne.mpr h
  simp [findFile, writeFile, List.lookup, hb]

/-- **C3**: for an incidence-angle (`lv_theta`) raster, the loop body
clips first, then runs the correction, then (when requested) the WGS84
warp — in that order — and the correction targets the *pre-clip source
path*, not the clipped destination: afterwards the source path holds a
brand-new raster carrying the source's geotransform header, projection
and no-data convention (the written no-data value is `0`, the pipeline's
sentinel, equal to the source's), and the pointwise-corrected original
(pre-clip) pixel values. -/
theorem processFile_clip_correct_warp_order (geo : Geo ℝ)
    (cwd output utm : String) (ul lr : ℚ × ℚ) (wgs84 : Bool) (w : World ℝ)
    (file : String) (r : RasterFile ℝ)
    (hsrc : findFile w file = some (.raster r))
    (hnod : r.noData = some 0)
    (htxt : strContains file ".txt" = false)
    (htif : strContains file ".tif" = true)
    (hlv : strContains (destinationFor cwd output file) "lv_theta" = true)
    (htifd : strContains (destinationFor cwd output file) ".tif" = true)
    (hne : file ≠ destinationFor cwd output file) :
    (processFile geo (Real.pi / 2) 0 cwd output utm ul lr wgs84 w file).2 =
      [Step.clip file (destinationFor cwd output file),
       Step.incCorrect file] ++
      (if wgs84 then [Step.warp (destinationFor cwd output file)]
       else []) ∧
    findFile
        (processFile geo (Real.pi / 2) 0 cwd output utm ul lr wgs84 w
          file).1 file =
      some (.raster { header := r.header, projection := r.projection,
                      noData := r.noData,
                      pixels := r.pixels.map
                        (fun θ => Real.pi / 2 - θ) }) := by
  rw [hnod]
  have hfw : findFile
      (writeFile w (destinationFor cwd output file)
        (geo.translate ul lr utm (.raster r))) file = some (.raster r) := by
    rw [findFile_writeFile_ne _ _ _ _ hne]
    exact hsrc
  have hfd : findFile
      (writeFile
        (writeFile w (destinationFor cwd output file)
          (geo.translate ul lr utm (.raster r))) file
        (.raster { header := r.header, projection := r.projection,
                   noData := some 0,
                   pixels := r.pixels.map (fun θ => Real.pi / 2 - θ) }))
      (destinationFor cwd output file) =
      some (geo.translate ul lr utm (.raster r)) := by
    rw [findFile_writeFile_ne _ _ _ _ (Ne.symm hne),
      findFile_writeFile_same]
  cases wgs84 with
  | false =>
    have hall : processFile geo (Real.pi / 2) 0 cwd output utm ul lr false
        w file =
        (writeFile
          (writeFile w (destinationFor cwd output file)
            (geo.translate ul lr utm (.raster r))) file
          (.raster { header := r.header, projection := r.projection,
                     noData := some 0,
                     pixels := r.pixels.map (fun θ => Real.pi / 2 - θ) }),
         [Step.clip file (destinationFor cwd output file),
          Step.incCorrect file]) := by
      simp [processFile, move_and_clip, correct_inc, htxt, htif, hsrc,
        hlv, hfw]
    rw [hall]
    exact ⟨by simp, findFile_writeFile_same _ _ _⟩
  | true =>
    have hall : processFile geo (Real.pi / 2) 0 cwd output utm ul lr true
        w file =
        (writeFile
          (writeFile
            (writeFile w (destinationFor cwd output file)
              (geo.translate ul lr utm (.raster r))) file
            (.raster { header := r.header, projection := r.projection,
                       noData := some 0,
                       pixels := r.pixels.map
                         (fun θ => Real.pi / 2 - θ) }))
          (destinationFor cwd output file)
          (geo.warp (geo.translate ul lr utm (.raster r))),
         [Step.clip file (destinationFor cwd output file),
          Step.incCorrect file,
          Step.warp (destinationFor cwd output file)]) := by
      simp [processFile, move_and_clip, correct_inc, to_WGS84, htxt, htif,
        hsrc, hlv, htifd, hfw, hfd]
    rw [hall]
    refine ⟨by simp, ?_⟩
    rw [findFile_writeFile_ne _ _ _ _ hne, findFile_writeFile_same]

/-- Concrete check of C3 on a one-raster filesystem with the WGS84 flag
set: the step trace is clip, then incidence correction of the source,
then warp of the destination, and the source path ends up with the
corrected raster built from its original header, projection and pixels. -/
theorem processFile_clip_correct_warp_order_witness :
    (processFile geoR (Real.pi / 2) 0 "/w" "out" "32611" (0, 0) (0, 0)
        true
        { dirs := [],
          files := [("ifgs/A/A_lv_theta.tif",
            .raster { header := rasterA, projection := "EPSG:32611",
                      noData := some 0, pixels := [0] })] }
        "ifgs/A/A_lv_theta.tif").2 =
      [Step.clip "ifgs/A/A_lv_theta.tif"
        (destinationFor "/w" "out" "ifgs/A/A_lv_theta.tif"),
       Step.incCorrect "ifgs/A/A_lv_theta.tif"] ++
      (if true then
        [Step.warp (destinationFor "/w" "out" "ifgs/A/A_lv_theta.tif")]
       else []) ∧
    findFile
        (processFile geoR (Real.pi / 2) 0 "/w" "out" "32611" (0, 0) (0, 0)
          true
          { dirs := [],
            files := [("ifgs/A/A_lv_theta.tif",
              .raster { header := rasterA, projection := "EPSG:32611",
                        noData := some 0, pixels := [0] })] }
          "ifgs/A/A_lv_theta.tif").1 "ifgs/A/A_lv_theta.tif" =
      some (.raster { header := rasterA, projection := "EPSG:32611",
                      noData := some 0,
                      pixels := ([0] : List ℝ).map
                        (fun θ => Real.pi / 2 - θ) }) :=
  processFile_clip_correct_warp_order geoR "/w" "out" "32611" (0, 0) (0, 0)
    true
    { dirs := [],
      files := [("ifgs/A/A_lv_theta.tif",
        .raster { header := rasterA, projection := "EPSG:32611",
                  noData := some 0, pixels := [0] })] }
    "ifgs/A/A_lv_theta.tif"
    { header := rasterA, projection := "EPSG:32611",
      noData := some 0, pixels := [0] }
    rfl rfl (by decide) (by decide) (by decide) (by decide) (by decide)

/-- Directory creation does not touch files. -/
theorem findFile_mkdirW {α : Type} (w : World α) (p q : String) :
    findFile (mkdirW w p) q = findFile w q := rfl

/-- After filtering out every entry under `mp`, a key under `mp` has no
binding. -/
theorem lookup_filter_not_under {α : Type} (mp q : String)
    (hq : underPath mp q = true) :
    ∀ l : List (String × FileData α),
      (l.filter (fun e => !underPath mp e.1)).lookup q = none := by
  intro l
  induction l with
  | nil => rfl
  | cons e t ih =>
    cases hk : underPath mp e.1 with
    | true => simp [List.filter_cons, hk, ih]
    | false =>
      have hne : (q == e.1) = false := by
        refine beq_eq_false_iff_ne.mpr fun hqe => ?_
        rw [hqe] at hq
        rw [hq] at hk
        exact Bool.true_eq_false.mp hk
      simp [List.filter_cons, hk, List.lookup, hne, ih]

/-- **C9 counterexample**: on a populated `out/mintpy` whose removal
fails, the failure *is* printed but execution does not continue into the
recreate-and-write: `os.mkdir` on the still-existing directory raises an
uncaught `FileExistsError`, the tree — including the stale template — is
left untouched, and `template.txt` is never written. -/
theorem build_template_failed_rmtree_no_continue :
    build_template (fun _ => false) "out/mintpy" w9 =
      (w9, [Step.rmtree "out/mintpy", Step.print "Error: removal failed"],
       some MainErr.fileExistsError) ∧
    findFile (build_template (fun _ => false) "out/mintpy" w9).1
        (joinPath "out/mintpy" "template.txt") = some (.text "stale") :=
  ⟨rfl, rfl⟩

/-- **C9 amended**: when the `mintpy` directory exists and its removal
succeeds, template emission removes the *entire* tree — afterwards every
path under the directory other than the fresh `template.txt` is gone —
then recreates the directory and writes `template.txt`; when the removal
fails, the failure is printed, but the subsequent `os.mkdir` on the
still-existing directory raises an uncaught `FileExistsError`: the run
aborts, the tree is left in place and no template is written. -/
theorem build_template_wipes_or_aborts {α : Type} (rk : String → Bool)
    (mp : String) (w : World α) (hex : pathExists w mp = true) :
    (rk mp = true →
      (build_template rk mp w).2.1 =
        [Step.rmtree mp, Step.mkdir mp,
         Step.write (joinPath mp "template.txt")] ∧
      (build_template rk mp w).2.2 = none ∧
      (∀ q, underPath mp q = true → q ≠ joinPath mp "template.txt" →
        findFile (build_template rk mp w).1 q = none) ∧
      findFile (build_template rk mp w).1 (joinPath mp "template.txt") =
        some (.text (templateText (joinPath mp "../hyp3")))) ∧
    (rk mp = false →
      (build_template rk mp w).2.1 =
        [Step.rmtree mp, Step.print "Error: removal failed"] ∧
      (build_template rk mp w).2.2 = some MainErr.fileExistsError ∧
      (build_template rk mp w).1 = w) := by
  refine ⟨fun hrk => ?_, fun hrk => ?_⟩
  · have hres : build_template rk mp w =
        (writeFile (mkdirW (rmtreeW w mp) mp) (joinPath mp "template.txt")
          (.text (templateText (joinPath mp "../hyp3"))),
         [Step.rmtree mp, Step.mkdir mp,
          Step.write (joinPath mp "template.txt")], none) := by
      simp [build_template, hex, hrk]
    rw [hres]
    refine ⟨rfl, rfl, fun q hq hqt => ?_, findFile_writeFile_same _ _ _⟩
    rw [findFile_writeFile_ne _ _ _ _ hqt, findFile_mkdirW]
    exact lookup_filter_not_under mp q hq w.files
  · have hres : build_template rk mp w =
        (w, [Step.rmtree mp, Step.print "Error: removal failed"],
         some MainErr.fileExistsError) := by
      simp [build_template, hex, hrk]
    rw [hres]
    exact ⟨rfl, rfl, rfl⟩

/-- Concrete check of the amended C9 on `w9`: a successful run destroys
the unrelated file `out/mintpy/old.h5`; a failed removal aborts with the
`FileExistsError`. -/
theorem build_template_wipes_or_aborts_witness :
    findFile (build_template rkAll "out/mintpy" w9).1 "out/mintpy/old.h5" =
      none ∧
    (build_template (fun _ => false) "out/mintpy" w9).2.2 =
      some MainErr.fileExistsError :=
  ⟨((build_template_wipes_or_aborts rkAll "out/mintpy" w9 (by decide)).1
      rfl).2.2.1 "out/mintpy/old.h5" (by decide) (by decide),
   ((build_template_wipes_or_aborts (fun _ => false) "out/mintpy" w9
      (by decide)).2 rfl).2.1⟩

/-- One round of the interferogram-directory loop only adds prints and
directory bookkeeping, never file output. -/
theorem ifgDirStep_steps_setup {α : Type} (rk : String → Bool)
    (hp : String) (acc : World α × List Step × Option MainErr) (n : String)
    (s : Step) (hs : s ∈ (ifgDirStep rk hp acc n).2.1) :
    s ∈ acc.2.1 ∨ fileOutputStep s = false := by
  cases he : acc.2.2 with
  | some e =>
    simp only [ifgDirStep, he] at hs
    exact Or.inl hs
  | none =>
    simp only [ifgDirStep, he] at hs
    cases hpe : pathExists acc.1 (joinPath hp n) with
    | false =>
      simp [hpe] at hs
      rcases hs with h | h
      · exact Or.inl h
      · subst h; exact Or.inr rfl
    | true =>
      cases hrk : rk (joinPath hp n) with
      | false =>
        simp [hpe, hrk] at hs
        rcases hs with h | h | h
        · exact Or.inl h
        all_goals (subst h; exact Or.inr rfl)
      | true =>
        simp [hpe, hrk] at hs
        rcases hs with h | h | h
        · exact Or.inl h
        all_goals (subst h; exact Or.inr rfl)

/-- The whole interferogram-directory loop only adds prints and directory
bookkeeping. -/
theorem makeIfgDirs_steps_setup {α : Type} (rk : String → Bool)
    (hp : String) :
    ∀ (names : List String) (acc : World α × List Step × Option MainErr),
      (∀ s ∈ acc.2.1, fileOutputStep s = false) →
      ∀ s ∈ (names.foldl (ifgDirStep rk hp) acc).2.1,
        fileOutputStep s = false := by
  intro names
  induction names with
  | nil => exact fun acc h s hs => h s hs
  | cons n ns ih =>
    intro acc h s hs
    rw [List.foldl_cons] at hs
    refine ih (ifgDirStep rk hp acc n) (fun t ht => ?_) s hs
    rcases ifgDirStep_steps_setup rk hp acc n t ht with h1 | h1
    · exact h t h1
    · exact h1

/-- Specialisation of `makeIfgDirs_steps_setup` to the loop's entry. -/
theorem makeIfgDirs_steps {α : Type} (rk : String → Bool) (hp : String)
    (names : List String) (w : World α) :
    ∀ s ∈ (makeIfgDirs rk hp names w).2.1, fileOutputStep s = false :=
  makeIfgDirs_steps_setup rk hp names (w, [], none) (by simp)

/-- When every removal succeeds, one round of the loop keeps the
no-error state. -/
theorem ifgDirStep_ok {α : Type} (rk : String → Bool) (hp : String)
    (acc : World α × List Step × Option MainErr) (n : String)
    (hrk : ∀ p, rk p = true) (he : acc.2.2 = none) :
    (ifgDirStep rk hp acc n).2.2 = none := by
  simp only [ifgDirStep, he]
  cases hpe : pathExists acc.1 (joinPath hp n) with
  | false => simp [hpe]
  | true => simp [hpe, hrk (joinPath hp n)]

/-- When every removal succeeds, the interferogram-directory loop never
aborts. -/
theorem makeIfgDirs_ok {α : Type} (rk : String → Bool) (hp : String)
    (hrk : ∀ p, rk p = true) :
    ∀ (names : List String) (acc : World α × List Step × Option MainErr),
      acc.2.2 = none →
      (names.foldl (ifgDirStep rk hp) acc).2.2 = none := by
  intro names
  induction names with
  | nil => exact fun acc h => h
  | cons n ns ih =>
    intro acc h
    rw [List.foldl_cons]
    exact ih (ifgDirStep rk hp acc n) (ifgDirStep_ok rk hp acc n hrk h)

/-- The diagnostic prints are never file output. -/
theorem checkMessages_steps (td : String) (o : Option (List String)) :
    ∀ s ∈ checkMessages td o, fileOutputStep s = false := by
  intro s hs
  cases o with
  | none =>
    simp [checkMessages] at hs
    subst hs; rfl
  | some tps =>
    by_cases hlt : tps.length < 1
    · simp [checkMessages, hlt] at hs
      rcases hs with h | h | h <;> (subst h; rfl)
    · simp [checkMessages, hlt] at hs
      subst hs; rfl

/-- The step recorded by the output-directory setup, as an if on the
pre-existence of the output directory. -/
theorem outputSetup_mem {α : Type} (pa : SubsetParams) (cwd : String)
    (w : World α) :
    (if pathExists w pa.output then
        Step.print "Output directory already exists, overwriting..."
      else Step.mkdir (joinPath cwd pa.output)) ∈
      (outputSetup pa cwd w).2 := by
  cases hpo : pathExists w pa.output <;> simp [outputSetup, hpo]

/-- The output-directory setup never produces file output. -/
theorem outputSetup_steps {α : Type} (pa : SubsetParams) (cwd : String)
    (w : World α) :
    ∀ s ∈ (outputSetup pa cwd w).2, fileOutputStep s = false := by
  intro s hs
  cases hpo : pathExists w pa.output <;> simp [outputSetup, hpo] at hs <;>
    (subst hs; rfl)

/-- The `hyp3` directory setup never produces file output. -/
theorem hyp3Setup_steps {α : Type} (hp : String) (w : World α) :
    ∀ s ∈ (hyp3Setup hp w).2, fileOutputStep s = false := by
  intro s hs
  cases hpo : pathExists w hp <;> simp [hyp3Setup, hpo] at hs
  subst hs; rfl

/-- **C7**: when the input root does not exist, or discovery yields zero
files, `main` prints the diagnostic but does not terminate — the bare
`exit` is a no-op — and execution continues into the output-directory
setup step; in the missing-root case the run later dies with a `NameError`
on the unbound `tiff_paths`, not with an input-not-found abort. -/
theorem mainSubset_bare_exit_noop {α : Type} [Sub α] (geo : Geo α)
    (halfPi zero : α) (g : String → List String) (rk : String → Bool)
    (pa : SubsetParams) (cwd : String) (w : World α) :
    (pathExists w pa.path = false →
      Step.print (pa.path ++ " does not exist.") ∈
        (mainSubset geo halfPi zero g rk pa cwd w).2.1 ∧
      (if pathExists w pa.output then
          Step.print "Output directory already exists, overwriting..."
        else Step.mkdir (joinPath cwd pa.output)) ∈
        (mainSubset geo halfPi zero g rk pa cwd w).2.1 ∧
      (mainSubset geo halfPi zero g rk pa cwd w).2.2 =
        some MainErr.nameError) ∧
    (pathExists w pa.path = true →
      get_paths g (discoveryPatterns pa.path) = [] →
      Step.print (pa.path ++ " exists but contains no tifs.") ∈
        (mainSubset geo halfPi zero g rk pa cwd w).2.1 ∧
      Step.print
          "You will not be able to proceed until tifs are prepared." ∈
        (mainSubset geo halfPi zero g rk pa cwd w).2.1 ∧
      (if pathExists w pa.output then
          Step.print "Output directory already exists, overwriting..."
        else Step.mkdir (joinPath cwd pa.output)) ∈
        (mainSubset geo halfPi zero g rk pa cwd w).2.1) := by
  refine ⟨fun hdir => ?_, fun hdir hzero => ?_⟩
  · refine ⟨?_, ?_, ?_⟩ <;>
      simp [mainSubset, hdir, checkMessages, outputSetup_mem]
  · cases hu : get_paths g [pa.path ++ "/**/*_unw_phase.tif"] with
    | nil =>
      refine ⟨?_, ?_, ?_⟩ <;>
        simp [mainSubset, hdir, hzero, hu, checkMessages, outputSetup_mem,
          makeIfgDirs]
    | cons first rest =>
      refine ⟨?_, ?_, ?_⟩ <;>
        simp [mainSubset, hdir, hzero, hu, checkMessages, outputSetup_mem,
          makeIfgDirs]

/-- Concrete check of C7: with a missing root the diagnostic is printed,
the output-directory step still runs and the run ends in the `NameError`;
with an existing but empty root both diagnostics are printed and the
output-directory step still runs. -/
theorem mainSubset_bare_exit_noop_witness :
    (Step.print (paW.path ++ " does not exist.") ∈
        (mainSubset geoQ (0 : ℚ) 0 globNone rkAll paW "/w" wEmpty).2.1 ∧
      (if pathExists wEmpty paW.output then
          Step.print "Output directory already exists, overwriting..."
        else Step.mkdir (joinPath "/w" paW.output)) ∈
        (mainSubset geoQ (0 : ℚ) 0 globNone rkAll paW "/w" wEmpty).2.1 ∧
      (mainSubset geoQ (0 : ℚ) 0 globNone rkAll paW "/w" wEmpty).2.2 =
        some MainErr.nameError) ∧
    (Step.print (paW.path ++ " exists but contains no tifs.") ∈
        (mainSubset geoQ (0 : ℚ) 0 globNone rkAll paW "/w" wIfgs).2.1 ∧
      Step.print
          "You will not be able to proceed until tifs are prepared." ∈
        (mainSubset geoQ (0 : ℚ) 0 globNone rkAll paW "/w" wIfgs).2.1 ∧
      (if pathExists wIfgs paW.output then
          Step.print "Output directory already exists, overwriting..."
        else Step.mkdir (joinPath "/w" paW.output)) ∈
        (mainSubset geoQ (0 : ℚ) 0 globNone rkAll paW "/w" wIfgs).2.1) :=
  ⟨(mainSubset_bare_exit_noop geoQ (0 : ℚ) 0 globNone rkAll paW "/w"
      wEmpty).1 (by decide),
   (mainSubset_bare_exit_noop geoQ (0 : ℚ) 0 globNone rkAll paW "/w"
      wIfgs).2 (by decide) rfl⟩

/-- **C8**: when the root exists, discovery finds files in other
categories but no `*_unw_phase.tif`, and no directory removal fails on
the way (so the interferogram-directory loop does not itself abort with
a `FileExistsError`), the run aborts with an uncaught `IndexError` while
deriving the UTM zone from element 0 of the empty unwrapped-phase list —
before any clipping, copying, warping or file write has happened (every
recorded step is a print or directory operation). -/
theorem mainSubset_no_unw_index_error {α : Type} [Sub α] (geo : Geo α)
    (halfPi zero : α) (g : String → List String) (rk : String → Bool)
    (pa : SubsetParams) (cwd : String) (w : World α)
    (hdir : pathExists w pa.path = true)
    (hunw : g (pa.path ++ "/**/*_unw_phase.tif") = [])
    (hsome : get_paths g (discoveryPatterns pa.path) ≠ [])
    (hrk : ∀ p, rk p = true) :
    (mainSubset geo halfPi zero g rk pa cwd w).2.2 =
      some MainErr.indexError ∧
    ∀ s ∈ (mainSubset geo halfPi zero g rk pa cwd w).2.1,
      fileOutputStep s = false := by
  have hu : get_paths g [pa.path ++ "/**/*_unw_phase.tif"] = [] := by
    simp [get_paths, hunw, List.insertionSort]
  have hifg : (makeIfgDirs rk (joinPath (joinPath cwd pa.output) "hyp3")
      ((get_paths g (discoveryPatterns pa.path)).map
        (fun p => basename (dirname p))).dedup
      (hyp3Setup (joinPath (joinPath cwd pa.output) "hyp3")
        (outputSetup pa cwd w).1).1).2.2 = none :=
    makeIfgDirs_ok _ _ hrk _ _ rfl
  have hres : mainSubset geo halfPi zero g rk pa cwd w =
      ((makeIfgDirs rk (joinPath (joinPath cwd pa.output) "hyp3")
          ((get_paths g (discoveryPatterns pa.path)).map
            (fun p => basename (dirname p))).dedup
          (hyp3Setup (joinPath (joinPath cwd pa.output) "hyp3")
            (outputSetup pa cwd w).1).1).1,
       checkMessages pa.path
           (some (get_paths g (discoveryPatterns pa.path))) ++
         (outputSetup pa cwd w).2 ++
         (hyp3Setup (joinPath (joinPath cwd pa.output) "hyp3")
           (outputSetup pa cwd w).1).2 ++
         (makeIfgDirs rk (joinPath (joinPath cwd pa.output) "hyp3")
           ((get_paths g (discoveryPatterns pa.path)).map
             (fun p => basename (dirname p))).dedup
           (hyp3Setup (joinPath (joinPath cwd pa.output) "hyp3")
             (outputSetup pa cwd w).1).1).2.1,
       some MainErr.indexError) := by
    simp [mainSubset, hdir, hu, hifg]
  rw [hres]
  refine ⟨rfl, fun s hs => ?_⟩
  rcases List.mem_append.mp hs with h | h
  · rcases List.mem_append.mp h with h' | h'
    · rcases List.mem_append.mp h' with h'' | h''
      · exact checkMessages_steps _ _ s h''
      · exact outputSetup_steps _ _ _ s h''
    · exact hyp3Setup_steps _ _ s h'
  · exact makeIfgDirs_steps _ _ _ _ s h

/-- Concrete check of C8: the glob finds one correlation file and no
unwrapped-phase file, and removals always succeed; the run ends in the
`IndexError` and no file-output step was recorded. -/
theorem mainSubset_no_unw_index_error_witness :
    (mainSubset geoQ (0 : ℚ) 0 glob1 rkAll paW "/w" wIfgs).2.2 =
      some MainErr.indexError ∧
    ∀ s ∈ (mainSubset geoQ (0 : ℚ) 0 glob1 rkAll paW "/w" wIfgs).2.1,
      fileOutputStep s = false :=
  mainSubset_no_unw_index_error geoQ (0 : ℚ) 0 glob1 rkAll paW "/w" wIfgs
    (by decide) (by decide) (by decide) (fun _ => rfl)

end MintPy
